import Mathlib

/-!
Verification development for the personal finance tracker
(`src/Untitled-1.py`): a shallow embedding of the `Transaction` /
`Budget` classes and proofs about their operations.

Modelling conventions:
* Python `Decimal` values are embedded as `ℚ` (exact arithmetic).
* `datetime.now().strftime("%Y-%m-%d")` is embedded by threading the
  current date string as an explicit `today` parameter; likewise the
  `"%Y-%m"` month used by `get_monthly_summary` is a `currentMonth`
  parameter.
* Python exceptions are embedded as an explicit error type `PyError`
  that distinguishes exception classes: `ValueError` (with its message),
  `TypeError`, `decimal.InvalidOperation` (raised by `Decimal(s)` on an
  unparseable string; it derives from `ArithmeticError`, so it is NOT
  caught by `except (ValueError, TypeError)`), and `KeyError` (raised by
  `d[k] += v` on a missing key).
* Mutating methods return `Except (PyError × Budget) Budget`: an error
  carries the state of the object at the moment the exception
  propagates, so claims about partial mutation are expressible.
* `to_dict` writes `float(self.amount)`; binary floating point is not
  modelled, so the store keeps the amount as the exact `ℚ`.  All claims
  settled here are decided by the other fields.
-/

/-- Embedding of the Python exception classes that the program can raise. -/
inductive PyError where
  | valueError (msg : String)
  | typeError
  | invalidOperation
  | keyError (k : String)
deriving Repr, DecidableEq

/-- Embedding of `class Transaction` (also its subclasses `Income` and
`Expense`, which only change the default category and add no fields). -/
structure Transaction where
  description : String
  amount : ℚ
  category : String
  date : String
deriving Repr, DecidableEq

/-- One serialized record, as produced by `Transaction.to_dict`. -/
structure StoreEntry where
  description : String
  amount : ℚ
  category : String
  date : String
deriving Repr, DecidableEq

/-- The JSON document shape of `budget_data.json`:
`{"income": [...], "expenses": [...]}`. -/
structure StoreData where
  income : List StoreEntry
  expenses : List StoreEntry
deriving Repr, DecidableEq

/-- Embedding of the `Budget` object state: the two in-memory lists plus
the contents of the backing store file (`none` = file absent). -/
structure Budget where
  incomes : List Transaction
  expenses : List Transaction
  store : Option StoreData
deriving Repr, DecidableEq

/-- `self.income_categories` from `Budget.__init__`. -/
def income_categories : List String :=
  ["Salary", "Investment", "Business", "Other"]

/-- `self.expense_categories` from `Budget.__init__`. -/
def expense_categories : List String :=
  ["Food", "Transportation", "Housing", "Entertainment", "Other"]

/-- Value of a digit string, most significant digit first. -/
def digitsToNat (l : List Char) : Nat :=
  l.foldl (fun n c => 10 * n + (c.toNat - '0'.toNat)) 0

/-- Parse an unsigned decimal literal `digits [. digits]` (at least one
digit overall), the core of Python `Decimal(str)` string conversion. -/
def parseUnsigned (s : List Char) : Option ℚ :=
  let p := s.span Char.isDigit
  match p.2 with
  | [] => if p.1.isEmpty then none else some (mkRat (digitsToNat p.1) 1)
  | '.' :: rest =>
    let q := rest.span Char.isDigit
    if q.2.isEmpty then
      if p.1.isEmpty && q.1.isEmpty then none
      else some (mkRat (digitsToNat p.1 * 10 ^ q.1.length + digitsToNat q.1) (10 ^ q.1.length))
    else none
  | _ => none

/-- Embedding of `Decimal(s)` for a string argument: `some q` when the
string is a plain (optionally signed) decimal literal, `none` when the
conversion raises `decimal.InvalidOperation` (exotic forms — exponents,
`NaN`, `Infinity`, surrounding whitespace — are not modelled; no claim
touches them). -/
def parseDecimal (s : String) : Option ℚ :=
  match s.data with
  | '-' :: rest => (parseUnsigned rest).map (fun q => -q)
  | '+' :: rest => parseUnsigned rest
  | l => parseUnsigned l

instance {ε α : Type} [DecidableEq ε] [DecidableEq α] : DecidableEq (Except ε α) :=
  fun a b =>
    match a, b with
    | .ok x, .ok y => decidable_of_iff (x = y) (by simp)
    | .error e, .error f => decidable_of_iff (e = f) (by simp)
    | .ok _, .error _ => isFalse (by simp)
    | .error _, .ok _ => isFalse (by simp)

/-- Embedding of `Transaction.__init__` (and the `Income` / `Expense`
initializers, which just forward): stores the fields and stamps the
creation date; it performs no validation of any field. -/
def mkTransaction (today : String) (description : String) (amount : ℚ)
    (category : String) : Transaction :=
  { description := description
    amount := amount
    category := category
    date := today }

/-- Embedding of `Transaction.to_dict` (the `float(self.amount)`
conversion is kept exact, see module comment). -/
def to_dict (t : Transaction) : StoreEntry :=
  { description := t.description
    amount := t.amount
    category := t.category
    date := t.date }

/-- Embedding of `Transaction.from_dict`: it passes only `description`,
`amount` and `category` to the initializer, so the reconstructed record
is stamped with the CURRENT date (`today`), not the stored `date`. -/
def from_dict (today : String) (d : StoreEntry) : Transaction :=
  mkTransaction today d.description d.amount d.category

/-- Embedding of `Budget.save_data`: rewrite the whole store from the
current in-memory lists. -/
def save_data (b : Budget) : Budget :=
  { b with store := some { income := b.incomes.map to_dict
                           expenses := b.expenses.map to_dict } }

/-- Embedding of `Budget.load_data`: if the store file exists, rebuild
both lists from its `income` / `expenses` arrays (missing keys default
to `[]`); otherwise leave both lists empty. -/
def load_data (today : String) (store : Option StoreData) :
    List Transaction × List Transaction :=
  match store with
  | none => ([], [])
  | some data => (data.income.map (from_dict today), data.expenses.map (from_dict today))

/-- Embedding of `Budget.__init__`: start with empty lists and load the
existing store. -/
def budget_init (today : String) (store : Option StoreData) : Budget :=
  { incomes := (load_data today store).1
    expenses := (load_data today store).2
    store := store }

/-- Embedding of the `except (ValueError, TypeError): raise
ValueError("Invalid amount")` clause wrapped around the body of
`add_income` / `add_expense`.  A `decimal.InvalidOperation` or a
`KeyError` is NOT one of the caught classes and propagates unchanged. -/
def catchInvalid (r : Except (PyError × Budget) Budget) :
    Except (PyError × Budget) Budget :=
  match r with
  | .error (.valueError _, st) => .error (.valueError "Invalid amount", st)
  | .error (.typeError, st) => .error (.valueError "Invalid amount", st)
  | other => other

/-- Embedding of the construction expression
`Income(description, Decimal(amount), category)` (identically
`Expense(...)`) for a string `amount`: `Decimal(amount)` raises
`decimal.InvalidOperation` on an unparseable string before the
initializer runs, so no record exists in that case. -/
def transactionOfStr (today : String) (description : String)
    (amount : String) (category : String) : Except PyError Transaction :=
  match parseDecimal amount with
  | none => .error .invalidOperation
  | some q => .ok (mkTransaction today description q category)

/-- Embedding of `Budget.add_income` for a string `amount` (the only
form the web layer uses).  Mirrors the source line by line: the
emptiness guard, then inside `try`: record construction (which raises
`InvalidOperation` on a malformed amount string), the positivity check,
append, `save_data`. -/
def add_income (today : String) (b : Budget) (description : String)
    (amount : String) (category : String) : Except (PyError × Budget) Budget :=
  if description = "" ∨ amount = "" then
    .error (.valueError "Description and amount are required", b)
  else
    catchInvalid <|
      match transactionOfStr today description amount category with
      | .error e => .error (e, b)
      | .ok income =>
        if income.amount ≤ 0 then
          .error (.valueError "Amount must be positive", b)
        else
          .ok (save_data { b with incomes := b.incomes ++ [income] })

/-- Embedding of `Budget.add_expense`, symmetric to `add_income`. -/
def add_expense (today : String) (b : Budget) (description : String)
    (amount : String) (category : String) : Except (PyError × Budget) Budget :=
  if description = "" ∨ amount = "" then
    .error (.valueError "Description and amount are required", b)
  else
    catchInvalid <|
      match transactionOfStr today description amount category with
      | .error e => .error (e, b)
      | .ok expense =>
        if expense.amount ≤ 0 then
          .error (.valueError "Amount must be positive", b)
        else
          .ok (save_data { b with expenses := b.expenses ++ [expense] })

/-- Python `sum(...)` over rationals: a left fold of `+` starting at `0`. -/
def pySum (l : List ℚ) : ℚ :=
  l.foldl (· + ·) 0

/-- Embedding of `Budget.get_total_income`. -/
def get_total_income (b : Budget) : ℚ :=
  pySum (b.incomes.map Transaction.amount)

/-- Embedding of `Budget.get_total_expenses`. -/
def get_total_expenses (b : Budget) : ℚ :=
  pySum (b.expenses.map Transaction.amount)

/-- Embedding of `Budget.get_balance`. -/
def get_balance (b : Budget) : ℚ :=
  get_total_income b - get_total_expenses b

/-- Python dict update `d[k] = v` on an association list (keys are
unique; only the first occurrence is replaced). -/
def dictUpdate (k : String) (v : ℚ) : List (String × ℚ) → List (String × ℚ)
  | [] => []
  | (k0, v0) :: rest =>
    if k0 = k then (k0, v) :: rest else (k0, v0) :: dictUpdate k v rest

/-- Python `d[k] += v` on an association list: raises `KeyError` when
`k` is absent, otherwise adds `v` to the stored value. -/
def dictGetAdd (d : List (String × ℚ)) (k : String) (v : ℚ) :
    Except PyError (List (String × ℚ)) :=
  match List.lookup k d with
  | none => .error (.keyError k)
  | some old => .ok (dictUpdate k (old + v) d)

/-- The `for expense in self.expenses: category_totals[...] += ...` loop
of `get_expenses_by_category`. -/
def categoryFold : List Transaction → List (String × ℚ) →
    Except PyError (List (String × ℚ))
  | [], d => .ok d
  | e :: es, d =>
    match dictGetAdd d e.category e.amount with
    | .error err => .error err
    | .ok d2 => categoryFold es d2

/-- Embedding of `Budget.get_expenses_by_category`: initialise a dict
with a zero for every fixed expense category, then accumulate; an
expense whose category is not a key raises `KeyError`. -/
def get_expenses_by_category (b : Budget) :
    Except PyError (List (String × ℚ)) :=
  categoryFold b.expenses (expense_categories.map (fun ca => (ca, (0 : ℚ))))

/-- The `{"income": ..., "expenses": ..., "balance": ...}` result of
`get_monthly_summary`. -/
structure MonthlySummary where
  income : ℚ
  expenses : ℚ
  balance : ℚ
deriving Repr, DecidableEq

/-- Embedding of `Budget.get_monthly_summary`: sum the amounts of the
records whose `date` starts with the current `"%Y-%m"` prefix
(string-prefix test, `str.startswith`). -/
def get_monthly_summary (currentMonth : String) (b : Budget) : MonthlySummary :=
  let monthly_income :=
    pySum ((b.incomes.filter (fun t => currentMonth.isPrefixOf t.date)).map Transaction.amount)
  let monthly_expenses :=
    pySum ((b.expenses.filter (fun t => currentMonth.isPrefixOf t.date)).map Transaction.amount)
  { income := monthly_income
    expenses := monthly_expenses
    balance := monthly_income - monthly_expenses }

/-- The `Budget` state right after `Budget.__init__` with no store file
present: two empty lists, nothing persisted yet. -/
def emptyBudget : Budget :=
  { incomes := [], expenses := [], store := none }

/-- A sample state used to instantiate theorems with hypotheses: the
result of adding the income ("Paycheck", "1000", "Salary") to the empty
budget on 2026-10-12. -/
def sampleAdded : Budget :=
  save_data { emptyBudget with
    incomes := [mkTransaction "2026-10-12" "Paycheck" (mkRat 1000 1) "Salary"] }

/-! ### Helper lemmas -/

theorem pySum_aux (l : List ℚ) (a : ℚ) : l.foldl (· + ·) a = a + l.sum := by
  induction l generalizing a with
  | nil => simp
  | cons x xs ih => simp [List.foldl_cons, ih]; ring

theorem pySum_eq_sum (l : List ℚ) : pySum l = l.sum := by
  simp [pySum, pySum_aux]

theorem catchInvalid_ok (x : Budget) : catchInvalid (.ok x) = .ok x := rfl

theorem add_income_ok_iff (today : String) (b : Budget) (d a c : String)
    (b2 : Budget) :
    add_income today b d a c = .ok b2 ↔
      ¬(d = "" ∨ a = "") ∧ ∃ q, parseDecimal a = some q ∧ ¬q ≤ 0 ∧
        b2 = save_data { b with incomes := b.incomes ++ [mkTransaction today d q c] } := by
  unfold add_income
  split
  case isTrue h => simp [h]
  case isFalse h =>
    simp only [h, not_false_iff, true_and]
    cases hp : parseDecimal a with
    | none => simp [transactionOfStr, hp, catchInvalid]
    | some q =>
      by_cases hq : q ≤ 0
      · simp [transactionOfStr, hp, catchInvalid, mkTransaction, hq]
      · simp only [transactionOfStr, hp, mkTransaction]
        rw [if_neg hq, catchInvalid_ok]
        constructor
        · intro hh
          exact ⟨q, rfl, hq, (Except.ok.inj hh).symm⟩
        · rintro ⟨q2, hsome, hq2, hb2⟩
          cases Option.some.inj hsome
          rw [hb2]

theorem add_expense_ok_iff (today : String) (b : Budget) (d a c : String)
    (b2 : Budget) :
    add_expense today b d a c = .ok b2 ↔
      ¬(d = "" ∨ a = "") ∧ ∃ q, parseDecimal a = some q ∧ ¬q ≤ 0 ∧
        b2 = save_data { b with expenses := b.expenses ++ [mkTransaction today d q c] } := by
  unfold add_expense
  split
  case isTrue h => simp [h]
  case isFalse h =>
    simp only [h, not_false_iff, true_and]
    cases hp : parseDecimal a with
    | none => simp [transactionOfStr, hp, catchInvalid]
    | some q =>
      by_cases hq : q ≤ 0
      · simp [transactionOfStr, hp, catchInvalid, mkTransaction, hq]
      · simp only [transactionOfStr, hp, mkTransaction]
        rw [if_neg hq, catchInvalid_ok]
        constructor
        · intro hh
          exact ⟨q, rfl, hq, (Except.ok.inj hh).symm⟩
        · rintro ⟨q2, hsome, hq2, hb2⟩
          cases Option.some.inj hsome
          rw [hb2]

theorem add_income_error_state (today : String) (b : Budget) (d a c : String)
    (e : PyError) (b2 : Budget)
    (h : add_income today b d a c = .error (e, b2)) : b2 = b := by
  unfold add_income at h
  split at h
  · simp_all
  · cases hp : parseDecimal a with
    | none => simp_all [transactionOfStr, catchInvalid]
    | some q =>
      by_cases hq : q ≤ 0 <;>
        simp_all [transactionOfStr, catchInvalid, mkTransaction]

theorem add_expense_error_state (today : String) (b : Budget) (d a c : String)
    (e : PyError) (b2 : Budget)
    (h : add_expense today b d a c = .error (e, b2)) : b2 = b := by
  unfold add_expense at h
  split at h
  · simp_all
  · cases hp : parseDecimal a with
    | none => simp_all [transactionOfStr, catchInvalid]
    | some q =>
      by_cases hq : q ≤ 0 <;>
        simp_all [transactionOfStr, catchInvalid, mkTransaction]

theorem lookup_map_of_mem (cats : List String) (f : String → ℚ) (k : String)
    (hk : k ∈ cats) :
    List.lookup k (cats.map (fun ca => (ca, f ca))) = some (f k) := by
  induction cats with
  | nil => simp at hk
  | cons c0 rest ih =>
    by_cases h : k = c0
    · subst h
      simp [List.lookup]
    · rcases List.mem_cons.mp hk with h2 | h2
      · exact absurd h2 h
      · simp only [List.map_cons, List.lookup]
        rw [show (k == c0) = false from beq_eq_false_iff_ne.mpr h]
        exact ih h2

theorem dictUpdate_map (cats : List String) (f : String → ℚ) (k : String) (v : ℚ)
    (hn : cats.Nodup) :
    dictUpdate k v (cats.map (fun ca => (ca, f ca))) =
      cats.map (fun ca => (ca, if ca = k then v else f ca)) := by
  induction cats with
  | nil => rfl
  | cons c0 rest ih =>
    simp only [List.map_cons, dictUpdate]
    by_cases h : c0 = k
    · rw [if_pos h, if_pos h]
      have hout : c0 ∉ rest := (List.nodup_cons.mp hn).1
      congr 1
      apply List.map_congr_left
      intro ca hca
      have : ¬ca = k := fun hk => hout (h ▸ hk ▸ hca)
      rw [if_neg this]
    · rw [if_neg h, if_neg h, ih (List.nodup_cons.mp hn).2]

theorem categoryFold_map (cats : List String) (hn : cats.Nodup) :
    ∀ (es : List Transaction) (f : String → ℚ),
      (∀ e ∈ es, e.category ∈ cats) →
      categoryFold es (cats.map (fun ca => (ca, f ca))) =
        .ok (cats.map (fun ca =>
          (ca, f ca + ((es.filter (fun e => e.category = ca)).map Transaction.amount).sum))) := by
  intro es
  induction es with
  | nil =>
    intro f _
    simp [categoryFold]
  | cons e rest ih =>
    intro f h
    have hc : e.category ∈ cats := h e (List.mem_cons_self e rest)
    simp only [categoryFold, dictGetAdd, lookup_map_of_mem cats f e.category hc]
    rw [dictUpdate_map cats f e.category (f e.category + e.amount) hn]
    have hmaps :
        (fun ca => (ca, if ca = e.category then f e.category + e.amount else f ca)) =
          (fun ca => (ca, f ca + if ca = e.category then e.amount else 0)) := by
      funext ca
      by_cases hca : ca = e.category
      · subst hca
        simp
      · simp [hca]
    rw [hmaps, ih (fun ca => f ca + if ca = e.category then e.amount else 0)
      (fun x hx => h x (List.mem_cons_of_mem e hx))]
    congr 1
    apply List.map_congr_left
    intro ca _
    by_cases hca : e.category = ca
    · subst hca
      simp [List.filter_cons, add_assoc]
    · simp only [List.filter_cons, hca, decide_false_eq_false, Bool.false_eq_true,
        if_false, decide_eq_true_eq]
      rw [if_neg (fun h2 => hca h2.symm), add_zero]

/-! ### Claim theorems -/

/-- Claim C1 (refuted, code bug): `add_expense("rent", "abc")` does not
fail with the single `InvalidAmount` error (`ValueError "Invalid
amount"`): the internal parse exception `decimal.InvalidOperation`
(an `ArithmeticError`) leaks to the caller, because the guard
`except (ValueError, TypeError)` does not catch it.  Zero and negative
amount strings do fail with `InvalidAmount` as specified. -/
theorem c1_parse_exception_leaks :
    add_expense "2026-10-12" emptyBudget "rent" "abc" "Other" =
        .error (.invalidOperation, emptyBudget) ∧
      add_income "2026-10-12" emptyBudget "rent" "abc" "Salary" =
        .error (.invalidOperation, emptyBudget) ∧
      add_expense "2026-10-12" emptyBudget "rent" "-5" "Other" =
        .error (.valueError "Invalid amount", emptyBudget) ∧
      add_expense "2026-10-12" emptyBudget "rent" "0" "Other" =
        .error (.valueError "Invalid amount", emptyBudget) ∧
      PyError.invalidOperation ≠ PyError.valueError "Invalid amount" := by
  decide

/-- Claim C2 (refuted, code bug): the store round-trip loses the `date`
field.  `from_dict` passes only description, amount and category to the
initializer, which stamps the CURRENT date: a record saved with date
`2026-01-15` and reloaded on `2026-10-12` comes back dated
`2026-10-12`, so the reloaded sequence differs from the saved one. -/
theorem c2_roundtrip_loses_date :
    load_data "2026-10-12"
        (save_data { incomes := [mkTransaction "2026-01-15" "Paycheck" (mkRat 1000 1) "Salary"],
                     expenses := [], store := none }).store =
      ([mkTransaction "2026-10-12" "Paycheck" (mkRat 1000 1) "Salary"], []) ∧
    mkTransaction "2026-10-12" "Paycheck" (mkRat 1000 1) "Salary" ≠
      mkTransaction "2026-01-15" "Paycheck" (mkRat 1000 1) "Salary" := by
  decide

/-- Claim C3, counterexample: an expense whose category is outside the
fixed set is NOT silently dropped — `get_expenses_by_category` fails
with a `KeyError` instead of succeeding. -/
theorem c3_counterexample :
    get_expenses_by_category
        { incomes := [],
          expenses := [mkTransaction "2026-10-12" "imported" (mkRat 5 1) "Weird"],
          store := none } =
      .error (.keyError "Weird") := by
  decide

/-- Claim C3 (amended): when every stored expense carries a category in
the fixed set, `get_expenses_by_category` succeeds and returns exactly
one entry per fixed category, valued at the sum of the expense amounts
in that category (`0` if none); an expense with a category outside the
fixed set instead makes the call fail with a `KeyError`. -/
theorem c3_categories_complete (b : Budget)
    (h : ∀ e ∈ b.expenses, e.category ∈ expense_categories) :
    get_expenses_by_category b =
      .ok (expense_categories.map (fun ca =>
        (ca, ((b.expenses.filter (fun e => e.category = ca)).map Transaction.amount).sum))) := by
  have hfold := categoryFold_map expense_categories (by decide) b.expenses (fun _ => 0) h
  simpa [get_expenses_by_category] using hfold

/-- Witness for `c3_categories_complete` at a concrete one-expense state. -/
theorem c3_witness :
    (∀ e ∈ ({ incomes := [],
              expenses := [mkTransaction "2026-10-12" "Groceries" (mkRat 301 2) "Food"],
              store := none } : Budget).expenses, e.category ∈ expense_categories) ∧
      get_expenses_by_category
          { incomes := [],
            expenses := [mkTransaction "2026-10-12" "Groceries" (mkRat 301 2) "Food"],
            store := none } =
        .ok [("Food", mkRat 301 2), ("Transportation", 0), ("Housing", 0),
             ("Entertainment", 0), ("Other", 0)] := by
  refine ⟨by decide, ?_⟩
  rw [c3_categories_complete _ (by decide)]
  simp [expense_categories, mkTransaction]

/-- Claim C4 (confirmed): a successful `add_income` / `add_expense`
appends the new record at the end of its list and synchronously rewrites
the whole store, which afterwards equals the serialization of both
current in-memory lists. -/
theorem c4_success_appends_and_persists (today : String) (b : Budget)
    (d a c : String) (b2 : Budget) :
    (add_income today b d a c = .ok b2 →
      (∃ q, parseDecimal a = some q ∧
        b2.incomes = b.incomes ++ [mkTransaction today d q c]) ∧
      b2.expenses = b.expenses ∧
      b2.store = some { income := b2.incomes.map to_dict,
                        expenses := b2.expenses.map to_dict }) ∧
    (add_expense today b d a c = .ok b2 →
      (∃ q, parseDecimal a = some q ∧
        b2.expenses = b.expenses ++ [mkTransaction today d q c]) ∧
      b2.incomes = b.incomes ∧
      b2.store = some { income := b2.incomes.map to_dict,
                        expenses := b2.expenses.map to_dict }) := by
  constructor
  · intro h
    rcases (add_income_ok_iff today b d a c b2).mp h with ⟨h1, q, hq, hqpos, rfl⟩
    exact ⟨⟨q, hq, rfl⟩, rfl, rfl⟩
  · intro h
    rcases (add_expense_ok_iff today b d a c b2).mp h with ⟨h1, q, hq, hqpos, rfl⟩
    exact ⟨⟨q, hq, rfl⟩, rfl, rfl⟩

/-- Witness for `c4_success_appends_and_persists` at a concrete call. -/
theorem c4_witness :
    (∃ q, parseDecimal "1000" = some q ∧
        sampleAdded.incomes =
          emptyBudget.incomes ++ [mkTransaction "2026-10-12" "Paycheck" q "Salary"]) ∧
      sampleAdded.expenses = emptyBudget.expenses ∧
      sampleAdded.store = some { income := sampleAdded.incomes.map to_dict,
                                 expenses := sampleAdded.expenses.map to_dict } :=
  (c4_success_appends_and_persists "2026-10-12" emptyBudget "Paycheck" "1000" "Salary"
    sampleAdded).1 (by decide)

/-- Claim C5, counterexample: `Transaction.__init__` performs no
description validation — constructing a record with an empty description
succeeds and yields that record, rather than failing with
`InvalidInput`. -/
theorem c5_counterexample :
    mkTransaction "2026-10-12" "" (mkRat 5 1) "Other" =
      { description := "", amount := mkRat 5 1, category := "Other",
        date := "2026-10-12" } := by
  decide

/-- Claim C5 (amended): record construction itself does not validate the
description (a record with an empty description can be constructed); the
empty-description rejection happens in the Ledger's add operations,
before any record is constructed.  An unparseable amount string does
make the construction expression fail (with the decimal parse error),
so no record is ever produced from one. -/
theorem c5_construction_validation (today d a c : String) (q : ℚ) (b : Budget) :
    (parseDecimal a = none →
      transactionOfStr today d a c = .error .invalidOperation) ∧
    mkTransaction today "" q c =
      { description := "", amount := q, category := c, date := today } ∧
    add_income today b "" a c =
      .error (.valueError "Description and amount are required", b) ∧
    add_expense today b "" a c =
      .error (.valueError "Description and amount are required", b) := by
  refine ⟨fun hp => by simp [transactionOfStr, hp], rfl, ?_, ?_⟩
  · simp [add_income]
  · simp [add_expense]

/-- Witness for `c5_construction_validation` at concrete inputs. -/
theorem c5_witness :
    transactionOfStr "2026-10-12" "rent" "abc" "Other" = .error .invalidOperation ∧
      mkTransaction "2026-10-12" "" (mkRat 5 1) "Other" =
        { description := "", amount := mkRat 5 1, category := "Other",
          date := "2026-10-12" } ∧
      add_income "2026-10-12" emptyBudget "" "abc" "Other" =
        .error (.valueError "Description and amount are required", emptyBudget) ∧
      add_expense "2026-10-12" emptyBudget "" "abc" "Other" =
        .error (.valueError "Description and amount are required", emptyBudget) := by
  have h := c5_construction_validation "2026-10-12" "rent" "abc" "Other" (mkRat 5 1) emptyBudget
  exact ⟨h.1 (by decide), h.2.1, h.2.2.1, h.2.2.2⟩

/-- Claim C6 (confirmed): a failed `add_income` / `add_expense` leaves
the `Budget` exactly as it was — every raise happens before the append,
so the state carried out by the exception equals the initial state (the
store write itself is modelled as always succeeding; the
post-validation persistence-failure window is outside the model). -/
theorem c6_failed_add_leaves_state (today : String) (b : Budget)
    (d a c : String) (e : PyError) (b2 : Budget)
    (h : add_income today b d a c = .error (e, b2) ∨
         add_expense today b d a c = .error (e, b2)) :
    b2 = b := by
  rcases h with h | h
  · exact add_income_error_state today b d a c e b2 h
  · exact add_expense_error_state today b d a c e b2 h

/-- Witness for `c6_failed_add_leaves_state` at a concrete failing call. -/
theorem c6_witness :
    add_income "2026-10-12" emptyBudget "rent" "abc" "Other" =
        .error (.invalidOperation, emptyBudget) ∧
      emptyBudget = emptyBudget :=
  ⟨by decide,
    c6_failed_add_leaves_state "2026-10-12" emptyBudget "rent" "abc" "Other"
      .invalidOperation emptyBudget (Or.inl (by decide))⟩

/-- Claim C7 (confirmed): `get_balance` always equals
`get_total_income - get_total_expenses`; each total is the exact sum of
the amounts of its list and `0` for an empty list. -/
theorem c7_balance_identity (b : Budget) (is es : List Transaction)
    (st : Option StoreData) :
    get_balance b = get_total_income b - get_total_expenses b ∧
    get_total_income b = (b.incomes.map Transaction.amount).sum ∧
    get_total_expenses b = (b.expenses.map Transaction.amount).sum ∧
    get_total_income { incomes := [], expenses := es, store := st } = 0 ∧
    get_total_expenses { incomes := is, expenses := [], store := st } = 0 := by
  refine ⟨rfl, ?_, ?_, ?_, ?_⟩
  · simp [get_total_income, pySum_eq_sum]
  · simp [get_total_expenses, pySum_eq_sum]
  · simp [get_total_income, pySum]
  · simp [get_total_expenses, pySum]

/-- Claim C8 (confirmed): an empty description (`add_income("", "10")`)
and an empty amount (`add_expense("x", "")`) both fail with the
`InvalidInput` error (`ValueError "Description and amount are
required"`), raised by the guard before any record is constructed, with
the state unchanged. -/
theorem c8_empty_description_or_amount (today : String) (b : Budget) :
    add_income today b "" "10" "Salary" =
      .error (.valueError "Description and amount are required", b) ∧
    add_expense today b "x" "" "Other" =
      .error (.valueError "Description and amount are required", b) := by
  constructor <;> rfl

/-- Claim C9 (confirmed): `get_monthly_summary` sums exactly the incomes
and expenses whose stored `date` string has the current year-month
string as a prefix (`String.isPrefixOf`, i.e. `str.startswith` — not
parsed date containment), and its `balance` is that monthly income sum
minus that monthly expense sum. -/
theorem c9_monthly_summary (cm : String) (b : Budget) :
    get_monthly_summary cm b =
      { income :=
          ((b.incomes.filter (fun t => cm.isPrefixOf t.date)).map Transaction.amount).sum,
        expenses :=
          ((b.expenses.filter (fun t => cm.isPrefixOf t.date)).map Transaction.amount).sum,
        balance :=
          ((b.incomes.filter (fun t => cm.isPrefixOf t.date)).map Transaction.amount).sum -
            ((b.expenses.filter (fun t => cm.isPrefixOf t.date)).map Transaction.amount).sum } := by
  simp [get_monthly_summary, pySum_eq_sum]

/-- Claim C10 (confirmed): `add_income` never changes the expense list
and `add_expense` never changes the income list; on success the store is
rewritten with the other list's contents serialized unchanged. -/
theorem c10_add_frames_other_list (today : String) (b : Budget)
    (d a c : String) (b2 : Budget) :
    (add_income today b d a c = .ok b2 →
      b2.expenses = b.expenses ∧
      b2.store = some { income := b2.incomes.map to_dict,
                        expenses := b.expenses.map to_dict }) ∧
    (add_expense today b d a c = .ok b2 →
      b2.incomes = b.incomes ∧
      b2.store = some { income := b.incomes.map to_dict,
                        expenses := b2.expenses.map to_dict }) := by
  constructor
  · intro h
    rcases (add_income_ok_iff today b d a c b2).mp h with ⟨h1, q, hq, hqpos, rfl⟩
    exact ⟨rfl, rfl⟩
  · intro h
    rcases (add_expense_ok_iff today b d a c b2).mp h with ⟨h1, q, hq, hqpos, rfl⟩
    exact ⟨rfl, rfl⟩

/-- Witness for `c10_add_frames_other_list` at a concrete call. -/
theorem c10_witness :
    sampleAdded.expenses = emptyBudget.expenses ∧
      sampleAdded.store = some { income := sampleAdded.incomes.map to_dict,
                                 expenses := emptyBudget.expenses.map to_dict } :=
  (c10_add_frames_other_list "2026-10-12" emptyBudget "Paycheck" "1000" "Salary"
    sampleAdded).1 (by decide)
